import Mathlib

/-!
Shallow embedding of the job-search aggregation layer of the repository
(`interview_agent/linkedin_tool/jobspy_tools.py`), together with theorems
settling the behavioural claims about `scrape_jobs_tool`.

Modelling conventions:
* A pandas cell that is missing (column absent from the row, `None`, or `NaN`
  under `pd.notna`) is `Option.none`; a present value is `Option.some`.
  Textual columns are `Option String`, the salary bounds are `Option ℚ`,
  and the remote flag is `Option Bool` (`job.get("is_remote")` truthiness /
  `fillna(False).astype(bool)` both become `Option.getD false`).
* The external scraping collaborator (`jobspy.scrape_jobs`) is opaque: its
  behaviour on one invocation is a value of `Except String (List JobRecord)`,
  `Except.error msg` standing for a raised exception with message `msg` and
  `Except.ok rows` for a returned data frame with those rows in order.
  `scrape_jobs_tool` takes that behaviour as an explicit argument.
* Python number formatting `f"{x:,.0f}"` is modelled over `ℚ` as rounding
  half-to-even to an integer followed by grouping the decimal digits in
  threes with commas.
* Logging calls have no effect on the returned value and are omitted.
-/

namespace JobspyTools

/-- Row of the collaborator's result table, one job posting.  Fields mirror
the columns read by `scrape_jobs_tool`; every column the code accesses
through `pd.notna` / `.get` may be missing, hence `Option`. -/
structure JobRecord where
  title : Option String := none
  company : Option String := none
  location : Option String := none
  site : Option String := none
  job_type : Option String := none
  date_posted : Option String := none
  min_amount : Option ℚ := none
  max_amount : Option ℚ := none
  currency : Option String := none
  interval : Option String := none
  is_remote : Option Bool := none
  job_url : Option String := none
  description : Option String := none
  company_industry : Option String := none
  job_level : Option String := none
  skills : Option String := none
  experience_range : Option String := none
  company_rating : Option String := none
deriving Repr, DecidableEq

/-- Keyword parameters of `scrape_jobs_tool`, with the source's defaults. -/
structure SearchRequest where
  search_term : String
  location : Option String := none
  site_name : Option (List String) := none
  results_wanted : Int := 15
  job_type : Option String := none
  is_remote : Bool := false
  hours_old : Option Int := none
  distance : Int := 50
  easy_apply : Bool := false
  country_indeed : String := "usa"
  linkedin_fetch_description : Bool := false
  offset : Int := 0
  verbose : Int := 1
deriving Repr, DecidableEq

/-- Source constant `_DEFAULT_SITES`. -/
def _DEFAULT_SITES : List String := ["indeed", "linkedin", "zip_recruiter", "google"]

/-- Source constant `_VALID_SITES` (a Python set, written here in the
source's literal order; membership is what matters). -/
def _VALID_SITES : List String :=
  ["linkedin", "indeed", "glassdoor", "zip_recruiter", "google", "bayt", "naukri", "bdjobs"]

/-- Python `repr` of a list of strings, as interpolated by
`f"{invalid_sites}"` (site names contain no quote characters). -/
def pyStrListRepr (l : List String) : String :=
  "[" ++ String.intercalate ", " (l.map (fun s => "'" ++ s ++ "'")) ++ "]"

/-- Python `sorted(_VALID_SITES)`: lexicographic sort of the valid-site set. -/
def sortedValidSites : List String :=
  List.insertionSort (fun a b : String => a ≤ b) _VALID_SITES

/-- Python `str.title()` restricted to ASCII letters: an alphabetic character
is uppercased when the previous character is not alphabetic and lowercased
otherwise; other characters pass through. -/
def pyTitle (s : String) : String :=
  (s.toList.foldl
    (fun acc c =>
      if c.isAlpha then
        (acc.1.push (if acc.2 then c.toLower else c.toUpper), true)
      else
        (acc.1.push c, false))
    (("", false) : String × Bool)).1

/-- Round a rational to the nearest integer, ties to even — the rounding of
Python's fixed-point float formatting. -/
def roundHalfEven (q : ℚ) : ℤ :=
  let f : ℤ := ⌊q⌋
  let r : ℚ := q - (f : ℚ)
  if r < 1/2 then f
  else if (1:ℚ)/2 < r then f + 1
  else if f % 2 = 0 then f else f + 1

/-- Insert a comma after every third character of a reversed digit list. -/
def group3 : List Char → List Char
  | a :: b :: c :: d :: rest => a :: b :: c :: ',' :: group3 (d :: rest)
  | l => l

/-- Python `f"{x:,.0f}"`: round half-to-even to zero decimal places and
group the integer digits in threes with commas. -/
def pyFormatComma0 (q : ℚ) : String :=
  let n : ℤ := roundHalfEven q
  (if n < 0 then "-" else "") ++
    String.mk ((group3 (toString n.natAbs).toList.reverse).reverse)

/-- Source helper `_trim_description`: keep descriptions readable by
trimming extra text (Python slice `text[:limit]` is a take of characters). -/
def _trim_description (text : String) (limit : Nat := 300) : String :=
  if text.length ≤ limit then text else String.mk (text.toList.take limit) ++ "..."

/-- Python `if pd.notna(x): parts.append(render(x))`: the (zero or one)
lines an optional column contributes to a listing block. -/
def optLine (o : Option String) (render : String → String) : List String :=
  match o with
  | some v => [render v]
  | none => []

/-- Lines 110-117 of the source: the salary line, present only when both
bounds are, with `.get` defaults `"USD"` and `"yearly"`. -/
def salaryLine (mn mx : Option ℚ) (cur itv : Option String) : List String :=
  match mn, mx with
  | some a, some b =>
    ["Salary: " ++ pyFormatComma0 a ++ " - " ++ pyFormatComma0 b ++ " " ++
      cur.getD "USD" ++ " (" ++ itv.getD "yearly" ++ ")"]
  | _, _ => []

/-- Lines 100-138 of the source: the `listing_parts` list built for one row
`job` under 1-based display index `index`. -/
def listing_parts (index : Nat) (job : JobRecord) : List String :=
  [toString index ++ ". " ++ job.title.getD "N/A",
   "Company: " ++ job.company.getD "N/A",
   "Location: " ++ job.location.getD "N/A",
   "Source: " ++ pyTitle (job.site.getD "N/A")]
  ++ optLine job.job_type (fun v => "Type: " ++ v)
  ++ optLine job.date_posted (fun v => "Posted: " ++ v)
  ++ salaryLine job.min_amount job.max_amount job.currency job.interval
  ++ (if job.is_remote.getD false then ["Remote work available"] else [])
  ++ optLine job.job_url (fun v => "Apply: " ++ v)
  ++ optLine job.description (fun v => "Description: " ++ _trim_description v)
  ++ optLine job.company_industry (fun v => "Industry: " ++ v)
  ++ optLine job.job_level (fun v => "Level: " ++ v)
  ++ optLine job.skills (fun v => "Skills: " ++ v)
  ++ optLine job.experience_range (fun v => "Experience: " ++ v)
  ++ optLine job.company_rating (fun v => "Company Rating: " ++ v ++ "/5")

/-- Line 140 of the source: one listing block is the parts joined by
newlines. -/
def listingBlock (index : Nat) (job : JobRecord) : String :=
  String.intercalate "\n" (listing_parts index job)

/-- Source loop `for index, (_, job) in enumerate(jobs_df.iterrows(), start=1)`:
build the listing blocks starting at display index `i`. -/
def listingsFrom (i : Nat) : List JobRecord → List String
  | [] => []
  | job :: rest => listingBlock i job :: listingsFrom (i + 1) rest

/-- The `listings` list of the source (display indices start at 1). -/
def listings (jobs : List JobRecord) : List String :=
  listingsFrom 1 jobs

/-- Lines 94-96 of the source: header line with count, search term and the
optional location (Python `if location:` is false for `None` and `""`). -/
def results_summary (req : SearchRequest) (n : Nat) : String :=
  "Found " ++ toString n ++ " jobs for '" ++ req.search_term ++ "'" ++
    (match req.location with
     | some loc => if loc = "" then "" else " in " ++ loc
     | none => "")

/-- Lines 142-146 of the source: `remote_column.fillna(False).astype(bool).sum()`
— the number of rows whose remote flag is present and true (a missing column
yields 0, which coincides with every row having `none`). -/
def remote_count (jobs : List JobRecord) : Nat :=
  (jobs.filter (fun j => j.is_remote.getD false)).length

/-- Line 162-163 of the source: rows where both salary bounds are present. -/
def salary_jobs (jobs : List JobRecord) : List JobRecord :=
  jobs.filter (fun j => j.min_amount.isSome && j.max_amount.isSome)

/-- Arithmetic mean of a list of rationals (pandas `Series.mean` over the
non-null values). -/
def listMean (l : List ℚ) : ℚ := l.sum / (l.length : ℚ)

/-- Lines 159-172 of the source: the two salary-statistics lines, present
exactly when some row has both salary bounds. -/
def salary_lines (jobs : List JobRecord) : List String :=
  let sj := salary_jobs jobs
  if sj = [] then []
  else
    let mins := sj.filterMap (fun j => j.min_amount)
    let maxs := sj.filterMap (fun j => j.max_amount)
    ["Jobs with salary info: " ++ toString sj.length,
     "Average salary range: " ++ pyFormatComma0 (listMean mins) ++ " - " ++
       pyFormatComma0 (listMean maxs)]

/-- Lines 148-172 of the source: the `summary_lines` list after the optional
salary extension. -/
def summary_lines (req : SearchRequest) (sites : List String)
    (jobs : List JobRecord) : List String :=
  [results_summary req jobs.length,
   "",
   String.intercalate "\n---\n" (listings jobs),
   "",
   "Search Summary",
   "Total jobs found: " ++ toString jobs.length,
   "Sites searched: " ++ String.intercalate ", " sites,
   "Remote jobs: " ++ toString (remote_count jobs)]
  ++ salary_lines jobs

/-- Lines 59 of the source: requested sites that are not in `_VALID_SITES`,
in request order, duplicates kept. -/
def invalid_sites (sites : List String) : List String :=
  sites.filter (fun s => !(_VALID_SITES.contains s))

/-- Line 89-92 of the source: the advisory string for an empty result. -/
def noJobsMessage : String :=
  "No jobs found that match your criteria. Try adjusting your search parameters."

/-- Lines 39-175 of the source: `scrape_jobs_tool`.  `scrape` is the
behaviour of the single collaborator invocation the function would make:
`Except.error msg` if `jobspy.scrape_jobs` raises with message `msg`,
`Except.ok rows` if it returns a frame with `rows`. -/
def scrape_jobs_tool (req : SearchRequest)
    (scrape : Except String (List JobRecord)) : String :=
  let sites := req.site_name.getD _DEFAULT_SITES
  if invalid_sites sites ≠ [] then
    "Error: invalid site names: " ++ pyStrListRepr (invalid_sites sites) ++
      ". Valid sites: " ++ pyStrListRepr sortedValidSites
  else
    match scrape with
    | Except.error exc => "Error scraping jobs: " ++ exc
    | Except.ok jobs =>
      if jobs = [] then noJobsMessage
      else String.intercalate "\n" (summary_lines req sites jobs)

/-- Concrete request used by witnesses: one valid site. -/
def reqIndeed : SearchRequest := { search_term := "x", site_name := some ["indeed"] }

/-- Concrete request used by witnesses: valid site and a location. -/
def reqNYC : SearchRequest :=
  { search_term := "x", location := some "NYC", site_name := some ["indeed"] }

/-- Concrete row used by witnesses: both salary bounds present. -/
def jobSalaried : JobRecord :=
  { title := some "Dev", min_amount := some 50000, max_amount := some 70000 }

/-- Concrete row used by witnesses: only a title. -/
def jobMinimal : JobRecord := { title := some "Eng" }

/-- Concrete row used by witnesses: remote flag set. -/
def jobRemote : JobRecord := { title := some "Dev", is_remote := some true }

/-! Helper lemmas shared by the claim theorems. -/

theorem intercalate_go_split (s : String) :
    ∀ (l : List String) (acc : String), ∃ r, String.intercalate.go acc s l = acc ++ r := by
  intro l
  induction l with
  | nil => exact fun acc => ⟨"", by simp [String.intercalate.go]⟩
  | cons a as ih =>
    intro acc
    obtain ⟨r, hr⟩ := ih (acc ++ s ++ a)
    refine ⟨s ++ a ++ r, ?_⟩
    show String.intercalate.go (acc ++ s ++ a) s as = acc ++ (s ++ a ++ r)
    rw [hr]
    simp only [String.append_assoc]

theorem intercalate_cons_split (s a : String) (l : List String) :
    ∃ r, String.intercalate s (a :: l) = a ++ r := by
  obtain ⟨r, hr⟩ := intercalate_go_split s l a
  exact ⟨r, hr⟩

theorem tool_eq_invalid (req : SearchRequest) (scrape : Except String (List JobRecord))
    (h : invalid_sites (req.site_name.getD _DEFAULT_SITES) ≠ []) :
    scrape_jobs_tool req scrape =
      "Error: invalid site names: " ++
        pyStrListRepr (invalid_sites (req.site_name.getD _DEFAULT_SITES)) ++
        ". Valid sites: " ++ pyStrListRepr sortedValidSites := by
  unfold scrape_jobs_tool
  simp [h]

theorem tool_eq_scrape_error (req : SearchRequest) (e : String)
    (h : invalid_sites (req.site_name.getD _DEFAULT_SITES) = []) :
    scrape_jobs_tool req (Except.error e) = "Error scraping jobs: " ++ e := by
  unfold scrape_jobs_tool
  simp [h]

theorem tool_eq_no_jobs (req : SearchRequest)
    (h : invalid_sites (req.site_name.getD _DEFAULT_SITES) = []) :
    scrape_jobs_tool req (Except.ok []) = noJobsMessage := by
  unfold scrape_jobs_tool
  simp [h]

theorem tool_eq_report (req : SearchRequest) (jobs : List JobRecord)
    (h : invalid_sites (req.site_name.getD _DEFAULT_SITES) = []) (hne : jobs ≠ []) :
    scrape_jobs_tool req (Except.ok jobs) =
      String.intercalate "\n" (summary_lines req (req.site_name.getD _DEFAULT_SITES) jobs) := by
  unfold scrape_jobs_tool
  simp [h, hne]

/-! Claim theorems. -/

/-- C1: for every request and every behaviour of the scraping collaborator
(rows, zero rows, or a raise), `scrape_jobs_tool` never raises to its caller
(in this embedding it is a total function into `String`), and the three
failure kinds are distinguishable by prefix: validation errors begin with
"Error: invalid site names", transport errors begin with
"Error scraping jobs:", and empty results begin with "No jobs found". -/
theorem scrape_jobs_tool_never_raises (req : SearchRequest)
    (scrape : Except String (List JobRecord)) :
    (invalid_sites (req.site_name.getD _DEFAULT_SITES) ≠ [] →
       ∃ r, scrape_jobs_tool req scrape = "Error: invalid site names" ++ r) ∧
    (∀ e, invalid_sites (req.site_name.getD _DEFAULT_SITES) = [] →
       scrape = Except.error e →
       ∃ r, scrape_jobs_tool req scrape = "Error scraping jobs:" ++ r) ∧
    (invalid_sites (req.site_name.getD _DEFAULT_SITES) = [] →
       scrape = Except.ok [] →
       ∃ r, scrape_jobs_tool req scrape = "No jobs found" ++ r) := by
  refine ⟨?_, ?_, ?_⟩
  · intro h
    rw [tool_eq_invalid req scrape h]
    refine ⟨": " ++ (pyStrListRepr (invalid_sites (req.site_name.getD _DEFAULT_SITES)) ++
      (". Valid sites: " ++ pyStrListRepr sortedValidSites)), ?_⟩
    simp only [← String.append_assoc]
    rfl
  · intro e h hs
    rw [hs, tool_eq_scrape_error req e h]
    refine ⟨" " ++ e, ?_⟩
    simp only [← String.append_assoc]
    rfl
  · intro h hs
    rw [hs, tool_eq_no_jobs req h]
    exact ⟨" that match your criteria. Try adjusting your search parameters.", rfl⟩

/-- C1 witness: the three failure prefixes at concrete inputs. -/
theorem scrape_jobs_tool_never_raises_witness :
    (invalid_sites (({ search_term := "x", site_name := some ["monster"] } :
        SearchRequest).site_name.getD _DEFAULT_SITES) ≠ [] ∧
      ∃ r, scrape_jobs_tool { search_term := "x", site_name := some ["monster"] }
        (Except.ok []) = "Error: invalid site names" ++ r) ∧
    (invalid_sites (({ search_term := "x" } : SearchRequest).site_name.getD _DEFAULT_SITES) = [] ∧
      ∃ r, scrape_jobs_tool { search_term := "x" } (Except.error "boom") =
        "Error scraping jobs:" ++ r) ∧
    (invalid_sites (({ search_term := "x" } : SearchRequest).site_name.getD _DEFAULT_SITES) = [] ∧
      ∃ r, scrape_jobs_tool { search_term := "x" } (Except.ok []) = "No jobs found" ++ r) :=
  ⟨⟨by decide,
    (scrape_jobs_tool_never_raises { search_term := "x", site_name := some ["monster"] }
      (Except.ok [])).1 (by decide)⟩,
   ⟨by decide,
    (scrape_jobs_tool_never_raises { search_term := "x" } (Except.error "boom")).2.1 "boom"
      (by decide) rfl⟩,
   ⟨by decide,
    (scrape_jobs_tool_never_raises { search_term := "x" } (Except.ok [])).2.2
      (by decide) rfl⟩⟩

/-- C2: whenever the requested site list contains an identifier outside the
valid-site set, `scrape_jobs_tool` returns the validation-error string naming
the invalid sites and the (sorted) valid set, and the result is independent
of the scraping collaborator's behaviour — the collaborator is never
invoked. -/
theorem scrape_jobs_tool_validation (req : SearchRequest)
    (s₁ s₂ : Except String (List JobRecord))
    (h : invalid_sites (req.site_name.getD _DEFAULT_SITES) ≠ []) :
    scrape_jobs_tool req s₁ =
      "Error: invalid site names: " ++
        pyStrListRepr (invalid_sites (req.site_name.getD _DEFAULT_SITES)) ++
        ". Valid sites: " ++ pyStrListRepr sortedValidSites ∧
    scrape_jobs_tool req s₁ = scrape_jobs_tool req s₂ := by
  refine ⟨tool_eq_invalid req s₁ h, ?_⟩
  rw [tool_eq_invalid req s₁ h, tool_eq_invalid req s₂ h]

/-- C2 witness: a concrete invalid request, with two different collaborator
behaviours giving the identical validation-error string. -/
theorem scrape_jobs_tool_validation_witness :
    invalid_sites (({ search_term := "x", site_name := some ["monster"] } :
        SearchRequest).site_name.getD _DEFAULT_SITES) ≠ [] ∧
    (scrape_jobs_tool { search_term := "x", site_name := some ["monster"] } (Except.ok []) =
      "Error: invalid site names: " ++
        pyStrListRepr (invalid_sites (({ search_term := "x", site_name := some ["monster"] } :
          SearchRequest).site_name.getD _DEFAULT_SITES)) ++
        ". Valid sites: " ++ pyStrListRepr sortedValidSites ∧
     scrape_jobs_tool { search_term := "x", site_name := some ["monster"] } (Except.ok []) =
       scrape_jobs_tool { search_term := "x", site_name := some ["monster"] }
         (Except.error "boom")) :=
  ⟨by decide,
   scrape_jobs_tool_validation { search_term := "x", site_name := some ["monster"] }
     (Except.ok []) (Except.error "boom") (by decide)⟩

/-- C3: `_trim_description` reproduces inputs of length at most 300
verbatim, and renders a longer input as exactly its first 300 characters
followed by "...", for a total of exactly 303 characters. -/
theorem trim_description_law (text : String) :
    (300 < text.length →
       _trim_description text = String.mk (text.toList.take 300) ++ "..." ∧
       (_trim_description text).length = 303) ∧
    (text.length ≤ 300 → _trim_description text = text) := by
  constructor
  · intro h
    have h' : ¬ text.length ≤ 300 := by omega
    constructor
    · simp [_trim_description, h']
    · have hlen : text.toList.length = text.length := rfl
      simp only [_trim_description, if_neg h', String.length_append, String.length_mk,
        List.length_take, hlen]
      have : min 300 text.length = 300 := by omega
      rw [this]
      rfl
  · intro h
    simp [_trim_description, h]

set_option maxRecDepth 4096 in
/-- C3 witness: a 301-character description is cut to 300 characters plus
"...", and a short description passes through unchanged. -/
theorem trim_description_law_witness :
    (300 < (String.mk (List.replicate 301 'a')).length ∧
      _trim_description (String.mk (List.replicate 301 'a')) =
        String.mk ((String.mk (List.replicate 301 'a')).toList.take 300) ++ "..." ∧
      (_trim_description (String.mk (List.replicate 301 'a'))).length = 303) ∧
    (("hi" : String).length ≤ 300 ∧ _trim_description "hi" = "hi") :=
  ⟨⟨by decide,
    (trim_description_law (String.mk (List.replicate 301 'a'))).1 (by decide)⟩,
   ⟨by decide, (trim_description_law "hi").2 (by decide)⟩⟩

/-- C7: with only valid site identifiers and a collaborator returning zero
rows, `scrape_jobs_tool` returns the fixed advisory string, which starts
with "No jobs found" and contains no listing blocks. -/
theorem scrape_jobs_tool_empty_result (req : SearchRequest)
    (h : invalid_sites (req.site_name.getD _DEFAULT_SITES) = []) :
    scrape_jobs_tool req (Except.ok []) =
      "No jobs found that match your criteria. Try adjusting your search parameters." ∧
    ∃ r, scrape_jobs_tool req (Except.ok []) = "No jobs found" ++ r := by
  refine ⟨tool_eq_no_jobs req h, ?_⟩
  rw [tool_eq_no_jobs req h]
  exact ⟨" that match your criteria. Try adjusting your search parameters.", rfl⟩

/-- C7 witness: the empty-result advisory at a concrete valid request. -/
theorem scrape_jobs_tool_empty_result_witness :
    invalid_sites (({ search_term := "python developer", site_name := some ["indeed"] } :
        SearchRequest).site_name.getD _DEFAULT_SITES) = [] ∧
    (scrape_jobs_tool { search_term := "python developer", site_name := some ["indeed"] }
        (Except.ok []) =
      "No jobs found that match your criteria. Try adjusting your search parameters." ∧
     ∃ r, scrape_jobs_tool { search_term := "python developer", site_name := some ["indeed"] }
        (Except.ok []) = "No jobs found" ++ r) :=
  ⟨by decide,
   scrape_jobs_tool_empty_result
     { search_term := "python developer", site_name := some ["indeed"] } (by decide)⟩

/-- C9: `scrape_jobs_tool` is deterministic — two invocations with the same
request parameters and the same collaborator response produce identical
output strings. -/
theorem scrape_jobs_tool_deterministic (req₁ req₂ : SearchRequest)
    (s₁ s₂ : Except String (List JobRecord)) (hreq : req₁ = req₂) (hs : s₁ = s₂) :
    scrape_jobs_tool req₁ s₁ = scrape_jobs_tool req₂ s₂ := by
  rw [hreq, hs]

/-- C9 witness: determinism at a concrete request and response. -/
theorem scrape_jobs_tool_deterministic_witness :
    ({ search_term := "x", site_name := some ["indeed"] } : SearchRequest) =
      { search_term := "x", site_name := some ["indeed"] } ∧
    (Except.ok ([{ title := some "Dev" }] : List JobRecord) :
        Except String (List JobRecord)) = Except.ok [{ title := some "Dev" }] ∧
    scrape_jobs_tool { search_term := "x", site_name := some ["indeed"] }
        (Except.ok [{ title := some "Dev" }]) =
      scrape_jobs_tool { search_term := "x", site_name := some ["indeed"] }
        (Except.ok [{ title := some "Dev" }]) :=
  ⟨rfl, rfl,
   scrape_jobs_tool_deterministic { search_term := "x", site_name := some ["indeed"] }
     { search_term := "x", site_name := some ["indeed"] }
     (Except.ok [{ title := some "Dev" }]) (Except.ok [{ title := some "Dev" }]) rfl rfl⟩

theorem optLine_eq_elim (o : Option String) (f : String → String) :
    optLine o f = o.elim [] (fun v => [f v]) := by
  cases o <;> rfl

theorem length_optLine (o : Option String) (f : String → String) :
    (optLine o f).length = if o.isSome then 1 else 0 := by
  cases o <;> rfl

theorem length_salaryLine (mn mx : Option ℚ) (cur itv : Option String) :
    (salaryLine mn mx cur itv).length = if mn.isSome ∧ mx.isSome then 1 else 0 := by
  cases mn <;> cases mx <;> simp [salaryLine]

/-- C10: the four mandatory lines (indexed title, company, location, source)
open every listing block, with "N/A" substituted when the column is absent
and the source value title-cased. -/
theorem listing_mandatory_lines (i : Nat) (job : JobRecord) :
    (listing_parts i job).take 4 =
      [toString i ++ ". " ++ job.title.getD "N/A",
       "Company: " ++ job.company.getD "N/A",
       "Location: " ++ job.location.getD "N/A",
       "Source: " ++ pyTitle (job.site.getD "N/A")] ∧
    (job.title = none → job.company = none → job.location = none → job.site = none →
      (listing_parts i job).take 4 =
        [toString i ++ ". N/A", "Company: N/A", "Location: N/A", "Source: N/A"]) := by
  have base : (listing_parts i job).take 4 =
      [toString i ++ ". " ++ job.title.getD "N/A",
       "Company: " ++ job.company.getD "N/A",
       "Location: " ++ job.location.getD "N/A",
       "Source: " ++ pyTitle (job.site.getD "N/A")] := rfl
  refine ⟨base, fun h₁ h₂ h₃ h₄ => ?_⟩
  rw [base, h₁, h₂, h₃, h₄]
  simp only [Option.getD_none]
  rw [String.append_assoc]
  rfl

/-- C10 witness: a record whose mandatory columns are all absent renders the
four placeholder lines. -/
theorem listing_mandatory_lines_witness :
    (({} : JobRecord).title = none ∧ ({} : JobRecord).company = none ∧
     ({} : JobRecord).location = none ∧ ({} : JobRecord).site = none) ∧
    (listing_parts 1 {}).take 4 =
      ["1. N/A", "Company: N/A", "Location: N/A", "Source: N/A"] :=
  ⟨⟨rfl, rfl, rfl, rfl⟩, (listing_mandatory_lines 1 {}).2 rfl rfl rfl rfl⟩

/-- C5: a listing block lists title, company, location and source first, in
that fixed order, and each optional attribute (job type, posting date,
salary when both bounds are present, remote flag, URL, description,
industry, level, skills, experience, rating) contributes exactly one line
when present and none when absent; absence cannot raise because the
rendering is total. -/
theorem listing_block_fields (i : Nat) (job : JobRecord) :
    listing_parts i job =
      [toString i ++ ". " ++ job.title.getD "N/A",
       "Company: " ++ job.company.getD "N/A",
       "Location: " ++ job.location.getD "N/A",
       "Source: " ++ pyTitle (job.site.getD "N/A")]
      ++ job.job_type.elim [] (fun v => ["Type: " ++ v])
      ++ job.date_posted.elim [] (fun v => ["Posted: " ++ v])
      ++ (match job.min_amount, job.max_amount with
          | some mn, some mx =>
            ["Salary: " ++ pyFormatComma0 mn ++ " - " ++ pyFormatComma0 mx ++ " " ++
              job.currency.getD "USD" ++ " (" ++ job.interval.getD "yearly" ++ ")"]
          | _, _ => [])
      ++ (if job.is_remote.getD false then ["Remote work available"] else [])
      ++ job.job_url.elim [] (fun v => ["Apply: " ++ v])
      ++ job.description.elim [] (fun v => ["Description: " ++ _trim_description v])
      ++ job.company_industry.elim [] (fun v => ["Industry: " ++ v])
      ++ job.job_level.elim [] (fun v => ["Level: " ++ v])
      ++ job.skills.elim [] (fun v => ["Skills: " ++ v])
      ++ job.experience_range.elim [] (fun v => ["Experience: " ++ v])
      ++ job.company_rating.elim [] (fun v => ["Company Rating: " ++ v ++ "/5"]) ∧
    (listing_parts i job).length =
      4 + (if job.job_type.isSome then 1 else 0)
        + (if job.date_posted.isSome then 1 else 0)
        + (if job.min_amount.isSome ∧ job.max_amount.isSome then 1 else 0)
        + (if job.is_remote.getD false then 1 else 0)
        + (if job.job_url.isSome then 1 else 0)
        + (if job.description.isSome then 1 else 0)
        + (if job.company_industry.isSome then 1 else 0)
        + (if job.job_level.isSome then 1 else 0)
        + (if job.skills.isSome then 1 else 0)
        + (if job.experience_range.isSome then 1 else 0)
        + (if job.company_rating.isSome then 1 else 0) := by
  obtain ⟨t, c, l, st, jt, dp, mn, mx, cur, itv, rem, url, desc, ind, lev, sk, er, cr⟩ := job
  constructor
  · cases mn <;> cases mx <;> simp [listing_parts, optLine_eq_elim, salaryLine]
  · simp only [listing_parts, List.length_append, length_optLine, length_salaryLine,
      List.length_cons, List.length_nil, apply_ite List.length]

theorem listingsFrom_length (jobs : List JobRecord) :
    ∀ i, (listingsFrom i jobs).length = jobs.length := by
  induction jobs with
  | nil => intro i; rfl
  | cons j rest ih => intro i; simp [listingsFrom, ih]

theorem listingsFrom_get (jobs : List JobRecord) :
    ∀ (i k : Nat) (hk : k < jobs.length) (hk2 : k < (listingsFrom i jobs).length),
      (listingsFrom i jobs).get ⟨k, hk2⟩ = listingBlock (i + k) (jobs.get ⟨k, hk⟩) := by
  induction jobs with
  | nil => intro i k hk hk2; exact absurd hk (by simp)
  | cons j rest ih =>
    intro i k hk hk2
    cases k with
    | zero => rfl
    | succ k' =>
      have hk' : k' < rest.length := by simpa using hk
      have hk2' : k' < (listingsFrom (i + 1) rest).length := by
        rw [listingsFrom_length]; exact hk'
      have step : (listingsFrom i (j :: rest)).get ⟨k' + 1, hk2⟩ =
          (listingsFrom (i + 1) rest).get ⟨k', hk2'⟩ := rfl
      rw [step, ih (i + 1) k' hk' hk2']
      have harith : i + 1 + k' = i + (k' + 1) := by omega
      rw [harith]
      rfl

theorem listingBlock_head (i : Nat) (job : JobRecord) :
    ∃ r, listingBlock i job = toString i ++ ". " ++ r := by
  obtain ⟨r0, hr0⟩ := intercalate_cons_split "\n"
    (toString i ++ ". " ++ job.title.getD "N/A") ((listing_parts i job).tail)
  refine ⟨job.title.getD "N/A" ++ r0, ?_⟩
  have hblock : listingBlock i job =
      String.intercalate "\n"
        ((toString i ++ ". " ++ job.title.getD "N/A") :: (listing_parts i job).tail) := rfl
  rw [hblock, hr0, String.append_assoc]

/-- C6: a non-empty collaborator result yields exactly one listing block per
input row, in collaborator order, each block opening with its 1-based
position, and the blocks (joined by the separator) are the third component
of the assembled report. -/
theorem listing_count_order_index (req : SearchRequest) (jobs : List JobRecord)
    (hv : invalid_sites (req.site_name.getD _DEFAULT_SITES) = []) (hne : jobs ≠ []) :
    (listings jobs).length = jobs.length ∧
    (∀ k (hk : k < jobs.length) (hk2 : k < (listings jobs).length),
       (listings jobs).get ⟨k, hk2⟩ = listingBlock (k + 1) (jobs.get ⟨k, hk⟩)) ∧
    (∀ k (hk : k < jobs.length) (hk2 : k < (listings jobs).length),
       ∃ r, (listings jobs).get ⟨k, hk2⟩ = toString (k + 1) ++ ". " ++ r) ∧
    scrape_jobs_tool req (Except.ok jobs) =
      String.intercalate "\n" (summary_lines req (req.site_name.getD _DEFAULT_SITES) jobs) ∧
    (∀ h2 : 2 < (summary_lines req (req.site_name.getD _DEFAULT_SITES) jobs).length,
       (summary_lines req (req.site_name.getD _DEFAULT_SITES) jobs).get ⟨2, h2⟩ =
         String.intercalate "\n---\n" (listings jobs)) := by
  refine ⟨listingsFrom_length jobs 1, ?_, ?_, tool_eq_report req jobs hv hne, fun h2 => rfl⟩
  · intro k hk hk2
    have h := listingsFrom_get jobs 1 k hk hk2
    rw [show 1 + k = k + 1 from by omega] at h
    exact h
  · intro k hk hk2
    have h := listingsFrom_get jobs 1 k hk hk2
    rw [show 1 + k = k + 1 from by omega] at h
    obtain ⟨r, hr⟩ := listingBlock_head (k + 1) (jobs.get ⟨k, hk⟩)
    exact ⟨r, h.trans hr⟩

/-- C6 witness: a concrete two-row result has two blocks, indexed 1 and 2,
in row order. -/
theorem listing_count_order_index_witness :
    invalid_sites (({ search_term := "x", site_name := some ["indeed"] } :
        SearchRequest).site_name.getD _DEFAULT_SITES) = [] ∧
    ([({ title := some "Dev" } : JobRecord), { title := some "Eng" }] ≠
      ([] : List JobRecord)) ∧
    ((listings [({ title := some "Dev" } : JobRecord), { title := some "Eng" }]).length =
        ([({ title := some "Dev" } : JobRecord), { title := some "Eng" }]).length ∧
     (∀ k (hk : k < ([({ title := some "Dev" } : JobRecord), { title := some "Eng" }]).length)
        (hk2 : k < (listings [({ title := some "Dev" } : JobRecord),
          { title := some "Eng" }]).length),
        (listings [({ title := some "Dev" } : JobRecord), { title := some "Eng" }]).get
            ⟨k, hk2⟩ =
          listingBlock (k + 1)
            (([({ title := some "Dev" } : JobRecord), { title := some "Eng" }]).get
              ⟨k, hk⟩)) ∧
     (∀ k (hk : k < ([({ title := some "Dev" } : JobRecord), { title := some "Eng" }]).length)
        (hk2 : k < (listings [({ title := some "Dev" } : JobRecord),
          { title := some "Eng" }]).length),
        ∃ r, (listings [({ title := some "Dev" } : JobRecord), { title := some "Eng" }]).get
            ⟨k, hk2⟩ = toString (k + 1) ++ ". " ++ r) ∧
     scrape_jobs_tool { search_term := "x", site_name := some ["indeed"] }
         (Except.ok [{ title := some "Dev" }, { title := some "Eng" }]) =
       String.intercalate "\n"
         (summary_lines { search_term := "x", site_name := some ["indeed"] }
           (({ search_term := "x", site_name := some ["indeed"] } :
             SearchRequest).site_name.getD _DEFAULT_SITES)
           [{ title := some "Dev" }, { title := some "Eng" }]) ∧
     (∀ h2 : 2 < (summary_lines { search_term := "x", site_name := some ["indeed"] }
         (({ search_term := "x", site_name := some ["indeed"] } :
           SearchRequest).site_name.getD _DEFAULT_SITES)
         [{ title := some "Dev" }, { title := some "Eng" }]).length,
        (summary_lines { search_term := "x", site_name := some ["indeed"] }
            (({ search_term := "x", site_name := some ["indeed"] } :
              SearchRequest).site_name.getD _DEFAULT_SITES)
            [{ title := some "Dev" }, { title := some "Eng" }]).get ⟨2, h2⟩ =
          String.intercalate "\n---\n"
            (listings [{ title := some "Dev" }, { title := some "Eng" }]))) :=
  ⟨by decide, by decide,
   listing_count_order_index { search_term := "x", site_name := some ["indeed"] }
     [{ title := some "Dev" }, { title := some "Eng" }] (by decide) (by decide)⟩

theorem salary_filterMap_min_length (jobs : List JobRecord) :
    ((salary_jobs jobs).filterMap JobRecord.min_amount).length = (salary_jobs jobs).length := by
  induction jobs with
  | nil => rfl
  | cons j rest ih =>
    rw [salary_jobs, List.filter_cons]
    by_cases h : (j.min_amount.isSome && j.max_amount.isSome) = true
    · rw [if_pos h]
      obtain ⟨hmin, _⟩ := Bool.and_eq_true_iff.mp h
      obtain ⟨v, hv⟩ := Option.isSome_iff_exists.mp hmin
      rw [salary_jobs] at ih
      simp [List.filterMap_cons, hv, ih]
    · rw [if_neg h]
      rw [salary_jobs] at ih
      exact ih

theorem salary_filterMap_max_length (jobs : List JobRecord) :
    ((salary_jobs jobs).filterMap JobRecord.max_amount).length = (salary_jobs jobs).length := by
  induction jobs with
  | nil => rfl
  | cons j rest ih =>
    rw [salary_jobs, List.filter_cons]
    by_cases h : (j.min_amount.isSome && j.max_amount.isSome) = true
    · rw [if_pos h]
      obtain ⟨_, hmax⟩ := Bool.and_eq_true_iff.mp h
      obtain ⟨v, hv⟩ := Option.isSome_iff_exists.mp hmax
      rw [salary_jobs] at ih
      simp [List.filterMap_cons, hv, ih]
    · rw [if_neg h]
      rw [salary_jobs] at ih
      exact ih

/-- C4: over a non-empty result with M rows carrying both salary bounds, no
salary summary lines are added when M = 0, and when M > 0 exactly the two
lines are added: the count line reporting M and the averages line whose two
values are the arithmetic means of the M minimum and M maximum salaries,
rendered rounded to zero decimal places. -/
theorem salary_aggregation (req : SearchRequest) (jobs : List JobRecord)
    (hv : invalid_sites (req.site_name.getD _DEFAULT_SITES) = []) (hne : jobs ≠ []) :
    scrape_jobs_tool req (Except.ok jobs) =
      String.intercalate "\n" (summary_lines req (req.site_name.getD _DEFAULT_SITES) jobs) ∧
    ((salary_jobs jobs).filterMap JobRecord.min_amount).length = (salary_jobs jobs).length ∧
    ((salary_jobs jobs).filterMap JobRecord.max_amount).length = (salary_jobs jobs).length ∧
    ((salary_jobs jobs).length = 0 → salary_lines jobs = []) ∧
    ((salary_jobs jobs).length ≠ 0 →
       salary_lines jobs =
         ["Jobs with salary info: " ++ toString (salary_jobs jobs).length,
          "Average salary range: " ++
            pyFormatComma0 (((salary_jobs jobs).filterMap JobRecord.min_amount).sum /
              ((salary_jobs jobs).length : ℚ)) ++ " - " ++
            pyFormatComma0 (((salary_jobs jobs).filterMap JobRecord.max_amount).sum /
              ((salary_jobs jobs).length : ℚ))]) ∧
    summary_lines req (req.site_name.getD _DEFAULT_SITES) jobs =
      [results_summary req jobs.length,
       "",
       String.intercalate "\n---\n" (listings jobs),
       "",
       "Search Summary",
       "Total jobs found: " ++ toString jobs.length,
       "Sites searched: " ++ String.intercalate ", " (req.site_name.getD _DEFAULT_SITES),
       "Remote jobs: " ++ toString (remote_count jobs)] ++ salary_lines jobs := by
  refine ⟨tool_eq_report req jobs hv hne,
    salary_filterMap_min_length jobs, salary_filterMap_max_length jobs, ?_, ?_, rfl⟩
  · intro hM
    have hnil : salary_jobs jobs = [] := List.length_eq_zero.mp hM
    simp [salary_lines, hnil]
  · intro hM
    have hnnil : ¬ salary_jobs jobs = [] := fun h => hM (by rw [h]; rfl)
    simp only [salary_lines, if_neg hnnil, listMean]
    rw [salary_filterMap_min_length, salary_filterMap_max_length]

/-- C4 witness: one of two concrete rows has both bounds; the count line
reports 1 and the averages are that row's bounds. -/
theorem salary_aggregation_witness :
    invalid_sites (reqIndeed.site_name.getD _DEFAULT_SITES) = [] ∧
    ([jobSalaried, jobMinimal] ≠ ([] : List JobRecord)) ∧
    (salary_jobs [jobSalaried, jobMinimal]).length ≠ 0 ∧
    salary_lines [jobSalaried, jobMinimal] =
      ["Jobs with salary info: " ++ toString (salary_jobs [jobSalaried, jobMinimal]).length,
       "Average salary range: " ++
        pyFormatComma0
          (((salary_jobs [jobSalaried, jobMinimal]).filterMap JobRecord.min_amount).sum /
            ((salary_jobs [jobSalaried, jobMinimal]).length : ℚ)) ++ " - " ++
        pyFormatComma0
          (((salary_jobs [jobSalaried, jobMinimal]).filterMap JobRecord.max_amount).sum /
            ((salary_jobs [jobSalaried, jobMinimal]).length : ℚ))] :=
  ⟨by decide, by decide, by decide,
   (salary_aggregation reqIndeed [jobSalaried, jobMinimal]
     (by decide) (by decide)).2.2.2.2.1 (by decide)⟩

/-- C8: the successful report is assembled in the exact order: header line
(count, quoted search term, optional location), blank line, the listing
blocks joined by the separator, blank line, the labeled summary section
with total count, the comma-joined site list in request order and the
remote count (missing flag counted as false), followed by the salary
statistics lines when applicable. -/
theorem report_assembly (req : SearchRequest) (jobs : List JobRecord)
    (hv : invalid_sites (req.site_name.getD _DEFAULT_SITES) = []) (hne : jobs ≠ []) :
    scrape_jobs_tool req (Except.ok jobs) =
      String.intercalate "\n"
        (["Found " ++ toString jobs.length ++ " jobs for '" ++ req.search_term ++ "'" ++
            (match req.location with
             | some loc => if loc = "" then "" else " in " ++ loc
             | none => ""),
          "",
          String.intercalate "\n---\n" (listings jobs),
          "",
          "Search Summary",
          "Total jobs found: " ++ toString jobs.length,
          "Sites searched: " ++ String.intercalate ", " (req.site_name.getD _DEFAULT_SITES),
          "Remote jobs: " ++
            toString ((jobs.filter (fun j => j.is_remote.getD false)).length)]
         ++ salary_lines jobs) := by
  rw [tool_eq_report req jobs hv hne]
  rfl

/-- C8 witness: full assembly at a concrete request with a location and one
concrete remote row. -/
theorem report_assembly_witness :
    invalid_sites (reqNYC.site_name.getD _DEFAULT_SITES) = [] ∧
    ([jobRemote] ≠ ([] : List JobRecord)) ∧
    scrape_jobs_tool reqNYC (Except.ok [jobRemote]) =
      String.intercalate "\n"
        (["Found " ++ toString ([jobRemote] : List JobRecord).length ++ " jobs for '" ++
            reqNYC.search_term ++ "'" ++
            (match reqNYC.location with
             | some loc => if loc = "" then "" else " in " ++ loc
             | none => ""),
          "",
          String.intercalate "\n---\n" (listings [jobRemote]),
          "",
          "Search Summary",
          "Total jobs found: " ++ toString ([jobRemote] : List JobRecord).length,
          "Sites searched: " ++
            String.intercalate ", " (reqNYC.site_name.getD _DEFAULT_SITES),
          "Remote jobs: " ++
            toString (([jobRemote] : List JobRecord).filter
              (fun j => j.is_remote.getD false)).length]
         ++ salary_lines [jobRemote]) :=
  ⟨by decide, by decide, report_assembly reqNYC [jobRemote] (by decide) (by decide)⟩

end JobspyTools
